import Mathlib

/-
Verification development for the copper rendering engine.

Shallow embedding of the engine's core subsystems over exact arithmetic:
the asynchronous texture/model loader (src/src/models/loader.rs), the
shadow-box frustum fitting algorithm (src/src/shadows/shadow_box.rs), the
master renderer's batching and pass sequencing
(src/src/renderers/master_renderer.rs) and the resource manager
(src/src/models/resource_manager.rs).

Machine floats (f32) are embedded as rationals; transcendental inputs
(tan of the field of view, trigonometric entries of rotation matrices)
are taken as parameters, since none of the verified properties depend on
their values.  HashMap is embedded as an association list (insert
replaces the value of an existing key in place, otherwise appends).
-/

namespace Copper

/-- Association list lookup (embedding of HashMap::get). -/
def alLookup {κ α : Type} [DecidableEq κ] : List (κ × α) → κ → Option α
  | [], _ => none
  | (k, v) :: rest, q => if q = k then some v else alLookup rest q

/-- Association list insert (embedding of HashMap::insert): replaces the
value stored at an existing key, otherwise appends a fresh entry. -/
def alInsert {κ α : Type} [DecidableEq κ] : List (κ × α) → κ → α → List (κ × α)
  | [], q, w => [(q, w)]
  | (k, v) :: rest, q, w =>
    if q = k then (k, w) :: rest else (k, v) :: alInsert rest q w

/-- Association list removal (embedding of HashMap::remove). -/
def alRemove {κ α : Type} [DecidableEq κ] : List (κ × α) → κ → List (κ × α)
  | [], _ => []
  | (k, v) :: rest, q => if q = k then rest else (k, v) :: alRemove rest q

/-- Association list key membership (embedding of HashMap::contains_key). -/
def alContains {κ α : Type} [DecidableEq κ] (m : List (κ × α)) (q : κ) : Bool :=
  (alLookup m q).isSome

theorem alLookup_alInsert_self {κ α : Type} [DecidableEq κ]
    (m : List (κ × α)) (k : κ) (v : α) : alLookup (alInsert m k v) k = some v := by
  induction m with
  | nil => simp [alInsert, alLookup]
  | cons p rest ih =>
    by_cases h : k = p.1
    · simp [alInsert, alLookup, h]
    · simp [alInsert, alLookup, h, ih]

theorem alLookup_alInsert_other {κ α : Type} [DecidableEq κ]
    (m : List (κ × α)) (k q : κ) (v : α) (h : q ≠ k) :
    alLookup (alInsert m k v) q = alLookup m q := by
  induction m with
  | nil => simp [alInsert, alLookup, h]
  | cons p rest ih =>
    by_cases hk : k = p.1
    · subst hk
      simp [alInsert, alLookup, h]
    · by_cases hq : q = p.1
      · simp [alInsert, alLookup, hk, hq]
      · simp [alInsert, alLookup, hk, hq, ih]

theorem alContains_alInsert_self {κ α : Type} [DecidableEq κ]
    (m : List (κ × α)) (k : κ) (v : α) : alContains (alInsert m k v) k = true := by
  simp [alContains, alLookup_alInsert_self]

theorem alContains_alInsert_other {κ α : Type} [DecidableEq κ]
    (m : List (κ × α)) (k q : κ) (v : α) (h : q ≠ k) :
    alContains (alInsert m k v) q = alContains m q := by
  simp [alContains, alLookup_alInsert_other m k q v h]

/-- Modelled from the spec: the tagged texture-id variant
(src/src/models/texture_id.rs is not under src/); states
Empty, Loading(token), Loaded(gpu_handle), FboTexture(gpu_handle). -/
inductive TextureId : Type
  | Empty : TextureId
  | Loading (token : Nat) : TextureId
  | Loaded (handle : Nat) : TextureId
  | FboTexture (handle : Nat) : TextureId
deriving DecidableEq, Repr

/-- Modelled from the spec: a decoded image as produced by the external
texture decoding collaborator (a width, height and pixel buffer). -/
structure Texture2D : Type where
  width : Nat
  height : Nat
  data : List Nat
deriving DecidableEq, Repr

/-- TextureParams from src/src/models/loader.rs. -/
structure TextureParams : Type where
  reverseTextureData : Bool := false
  useMipmap : Bool := false
  mipmapLod : ℚ := 0
  useAnisotropicFiltering : Bool := false
deriving DecidableEq, Repr

instance : Inhabited TextureParams := ⟨{}⟩

/-- ExtraInfo from src/src/models/loader.rs (cubemap bookkeeping attached to
each texture decode result). -/
structure ExtraInfo : Type where
  isCubemap : Bool := false
  order : Nat := 0
  cubemapToken : Nat := 0
deriving DecidableEq, Repr

instance : Inhabited ExtraInfo := ⟨{}⟩

/-- A completed decode result as sent across the worker channel: the
TextureResult tuple (Texture, temp_tex_id, params, extra_info) of
src/src/models/loader.rs. -/
structure TextureResult : Type where
  tex : Texture2D
  token : Nat
  params : TextureParams
  extra : ExtraInfo
deriving DecidableEq, Repr

/-- State of a ModelLoader (src/src/models/loader.rs), together with the
observable effects of the graphics library and worker pool:
`channel` holds the completed decode results waiting in the mpsc channel,
`pendingJobs` the decode jobs handed to the thread pool, `glNextId` models
the graphics API handle generator (gen_texture / gen_buffer /
gen_vertex_array return fresh handles; the gl module is an external
collaborator), and `cubemapUploadLog` records, per call to
load_cube_map_into_graphics_lib, the (face index, texture) pairs passed to
gl::tex_image_2d in call order. -/
structure LoaderState : Type where
  vaoList : List Nat := []
  vboList : List Nat := []
  texList : List Nat := []
  channel : List TextureResult := []
  pendingJobs : List (String × Nat × TextureParams × ExtraInfo) := []
  textureTokenMap : List (Nat × Nat) := []
  textureTokenGen : Nat := 0
  loadingTextureCnt : Nat := 0
  cubemapTokenGen : Nat := 0
  unprocessedCubemapTextures : List (Nat × List TextureResult) := []
  glNextId : Nat := 0
  cubemapUploadLog : List (List (Nat × Texture2D)) := []
deriving DecidableEq, Repr

/-- ModelLoader::new / Default::default: the fresh loader state. -/
def loaderNew : LoaderState := {}

/-- load_texture_internal: bumps the texture token generator, increments the
in-flight counter, enqueues the decode job on the worker pool and returns
TextureId::Loading with the fresh token. -/
def loadTextureInternal (fileName : String) (params : TextureParams)
    (extraInfo : ExtraInfo) (s : LoaderState) : TextureId × LoaderState :=
  let gen := s.textureTokenGen + 1
  let textureQueueId := gen
  (TextureId.Loading textureQueueId,
   { s with
      textureTokenGen := gen
      loadingTextureCnt := s.loadingTextureCnt + 1
      pendingJobs := s.pendingJobs ++ [(fileName, textureQueueId, params, extraInfo)] })

/-- load_cube_map: bumps the cubemap token generator, creates the (empty)
accumulation entry for that token, enqueues the six face loads (faces
1..6, each tagged with its face index and the cubemap token) and returns
TextureId::Loading with the cubemap token. -/
def loadCubeMap (cubeMapFolder : String) (s : LoaderState) : TextureId × LoaderState :=
  let cubemapToken := s.cubemapTokenGen + 1
  let s1 := { s with
    cubemapTokenGen := cubemapToken
    unprocessedCubemapTextures :=
      alInsert s.unprocessedCubemapTextures cubemapToken [] }
  let s2 := (List.range 6).foldl
    (fun acc i =>
      let fname := cubeMapFolder ++ "/" ++ toString (i + 1) ++ ".png"
      (loadTextureInternal fname {}
        { isCubemap := true, order := i + 1, cubemapToken := cubemapToken } acc).2)
    s1
  (TextureId.Loading cubemapToken, s2)

/-- load_texture_into_graphics_lib: creates a GPU texture handle, records it
in tex_list, uploads the pixel data (a pure graphics-API effect) and
returns the handle. -/
def loadTextureIntoGraphicsLib (_tex : Texture2D) (_params : TextureParams)
    (s : LoaderState) : Nat × LoaderState :=
  let texId := s.glNextId
  (texId, { s with glNextId := s.glNextId + 1, texList := s.texList ++ [texId] })

/-- load_cube_map_into_graphics_lib: creates the cubemap GPU handle, then
iterates the accumulated face results in their stored (arrival) order,
uploading each to the cubemap face target CUBEMAP_FACES[order-1]; finally
removes the accumulation entry.  Returns none where the source's expect /
assert would abort (missing token entry, or an entry without exactly six
faces). -/
def loadCubeMapIntoGraphicsLib (loadingCubemapId : Nat) (s : LoaderState) :
    Option (Nat × LoaderState) :=
  let cubemapId := s.glNextId
  match alLookup s.unprocessedCubemapTextures loadingCubemapId with
  | none => none
  | some texturesForCubemap =>
    if texturesForCubemap.length = 6 then
      some (cubemapId,
        { s with
            glNextId := s.glNextId + 1
            texList := s.texList ++ [cubemapId]
            cubemapUploadLog := s.cubemapUploadLog ++
              [texturesForCubemap.map (fun r => (r.extra.order, r.tex))]
            unprocessedCubemapTextures :=
              alRemove s.unprocessedCubemapTextures loadingCubemapId })
    else none

/-- update_resource_state: one non-blocking try_recv on the result channel.
If no result is ready the call is a no-op (TryRecvError::Empty; the
Disconnected arm cannot fire since the loader owns a sender).  A received
cubemap face is appended to its token's accumulation entry and the
six-face cubemap is uploaded exactly when the sixth face arrives; a
standalone texture is uploaded and recorded under its token.  The
in-flight counter is decremented once for the received result.  Returns
none where the source's expect would abort. -/
def updateResourceState (s : LoaderState) : Option LoaderState :=
  match s.channel with
  | [] => some s
  | textureResult :: rest =>
    let s0 := { s with channel := rest }
    if textureResult.extra.isCubemap then
      let cubemapToken := textureResult.extra.cubemapToken
      match alLookup s0.unprocessedCubemapTextures cubemapToken with
      | none => none
      | some unprocessedTextures =>
        let grown := unprocessedTextures ++ [textureResult]
        let s1 := { s0 with
          unprocessedCubemapTextures :=
            alInsert s0.unprocessedCubemapTextures cubemapToken grown }
        if grown.length = 6 then
          match loadCubeMapIntoGraphicsLib cubemapToken s1 with
          | none => none
          | some (cubemapId, s2) =>
            some { s2 with
              textureTokenMap := alInsert s2.textureTokenMap cubemapToken cubemapId
              loadingTextureCnt := s2.loadingTextureCnt - 1 }
        else
          some { s1 with loadingTextureCnt := s1.loadingTextureCnt - 1 }
    else
      let up := loadTextureIntoGraphicsLib textureResult.tex textureResult.params s0
      some { up.2 with
        textureTokenMap := alInsert up.2.textureTokenMap textureResult.token up.1
        loadingTextureCnt := up.2.loadingTextureCnt - 1 }

/-- Iterated per-frame draining: n successive calls to update_resource_state. -/
def updateIter : Nat → LoaderState → Option LoaderState
  | 0, s => some s
  | n + 1, s =>
    match updateResourceState s with
    | none => none
    | some s2 => updateIter n s2

/-- The abort conditions of the loader's resolve path, one constructor per
panic message in src/src/models/loader.rs. -/
inductive ResolveFault : Type
  | unregisteredToken : ResolveFault
  | emptyTexture : ResolveFault
  | fboAttachment : ResolveFault
deriving DecidableEq, Repr

/-- resolve (src/src/models/loader.rs): Loading(token) is looked up in the
token map (aborting when the token was never recorded), Loaded passes
through unchanged, Empty and FboTexture abort.  resolve borrows the loader
immutably (&self), so it never mutates loader state; the embedding
therefore returns only the resolved id. -/
def resolve (s : LoaderState) (textureId : TextureId) : Except ResolveFault TextureId :=
  match textureId with
  | TextureId.Loading texId =>
    match alLookup s.textureTokenMap texId with
    | some graphicsLibTexId => Except.ok (TextureId.Loaded graphicsLibTexId)
    | none => Except.error ResolveFault.unregisteredToken
  | TextureId.Loaded id => Except.ok (TextureId.Loaded id)
  | TextureId.Empty => Except.error ResolveFault.emptyTexture
  | TextureId.FboTexture _ => Except.error ResolveFault.fboAttachment

/-- load_gui_texture: a standalone (non-cubemap) texture request. -/
def loadGuiTexture (fileName : String) (params : TextureParams)
    (s : LoaderState) : TextureId × LoaderState :=
  loadTextureInternal fileName params {} s

/-- Vector3f (src/src/math/vector.rs) over exact rationals. -/
structure Vec3 : Type where
  x : ℚ
  y : ℚ
  z : ℚ
deriving DecidableEq, Repr

/-- Vector4f over exact rationals. -/
structure Vec4 : Type where
  x : ℚ
  y : ℚ
  z : ℚ
  w : ℚ
deriving DecidableEq, Repr

/-- The xyz projection of a 4-vector. -/
def Vec4.xyz (v : Vec4) : Vec3 := ⟨v.x, v.y, v.z⟩

/-- Vector-times-scalar (the `&v * c` of the source's math library). -/
def Vec3.smul (v : Vec3) (c : ℚ) : Vec3 := ⟨v.x * c, v.y * c, v.z * c⟩

/-- A 4x4 matrix as four rows (math/matrix.rs is not under src/; only the
matrix-times-vector action is needed here). -/
structure Mat4 : Type where
  r0 : Vec4
  r1 : Vec4
  r2 : Vec4
  r3 : Vec4
deriving DecidableEq, Repr

/-- Row-by-vector dot product. -/
def Vec4.dot (a b : Vec4) : ℚ := a.x * b.x + a.y * b.y + a.z * b.z + a.w * b.w

/-- Matrix-times-column-vector. -/
def Mat4.transform (m : Mat4) (v : Vec4) : Vec4 :=
  ⟨m.r0.dot v, m.r1.dot v, m.r2.dot v, m.r3.dot v⟩

/-- The identity matrix. -/
def mat4Id : Mat4 :=
  ⟨⟨1, 0, 0, 0⟩, ⟨0, 1, 0, 0⟩, ⟨0, 0, 1, 0⟩, ⟨0, 0, 0, 1⟩⟩

/-- Translation by d along x, as a homogeneous transform. -/
def mat4TranslateX (d : ℚ) : Mat4 :=
  ⟨⟨1, 0, 0, d⟩, ⟨0, 1, 0, 0⟩, ⟨0, 0, 1, 0⟩, ⟨0, 0, 0, 1⟩⟩

/-- ShadowBox::SHADOW_DISTANCE (src/src/shadows/shadow_box.rs). -/
def shadowDistance : ℚ := 100

/-- ShadowBox::FORWARD. -/
def shadowBoxForward : Vec4 := ⟨0, 0, -1, 0⟩

/-- ShadowBox state (src/src/shadows/shadow_box.rs): the four plane
half-extent products computed once from FOV/aspect, and the per-frame
min/max corners and world-space center. -/
structure ShadowBox : Type where
  farplaneWidth : ℚ
  farplaneHeight : ℚ
  nearplaneWidth : ℚ
  nearplaneHeight : ℚ
  frustumMinCorner : Vec3
  frustumMaxCorner : Vec3
  worldSpaceCenter : Vec3
deriving DecidableEq, Repr

/-- compute_frustum_sizes.  Display::NEAR, Display::FAR and the tangent of
half the horizontal FOV are parameters (the display module is not under
src/, and the tangent is transcendental); the returned tuple is
(far_width, far_height, near_width, near_height) as in the source. -/
def computeFrustumSizes (near far tanFovHalf aspect : ℚ) : ℚ × ℚ × ℚ × ℚ :=
  let nearWidth := -2 * near * tanFovHalf
  let farWidth := -2 * far * tanFovHalf
  let nearHeight := nearWidth / aspect
  let farHeight := farWidth / aspect
  (farWidth, farHeight, nearWidth, nearHeight)

/-- ShadowBox::new. -/
def shadowBoxNew (near far tanFovHalf aspect : ℚ) : ShadowBox :=
  let sizes := computeFrustumSizes near far tanFovHalf aspect
  { farplaneWidth := sizes.1
    farplaneHeight := sizes.2.1
    nearplaneWidth := sizes.2.2.1
    nearplaneHeight := sizes.2.2.2
    frustumMinCorner := ⟨0, 0, 0⟩
    frustumMaxCorner := ⟨0, 0, 0⟩
    worldSpaceCenter := ⟨0, 0, 0⟩ }

/-- transform_vertex_to_lightspace: the source's body is empty, so the
vertex is returned unchanged. -/
def transformVertexToLightspace (v : Vec3) : Vec3 := v

/-- calc_camera_frustum_corners_in_lightspace: the eight corners, in source
order, built from the near-plane half extents at z = Display::NEAR and the
far-plane half extents at z = Display::FAR, each passed through the (no-op)
light-space transform.  The rotation, forward vector and the two plane
centers are received but never read, exactly as in the source. -/
def calcCameraFrustumCornersInLightspace (sb : ShadowBox) (near far : ℚ)
    (_cameraRotation : Mat4) (_fwdViewSpace : Vec3)
    (_centerNear _centerFar : Vec3) : List Vec3 :=
  let corners : List Vec3 :=
    [ ⟨sb.nearplaneWidth / 2, sb.nearplaneHeight / 2, near⟩,
      ⟨sb.nearplaneWidth / 2, -sb.nearplaneHeight / 2, near⟩,
      ⟨-sb.nearplaneWidth / 2, -sb.nearplaneHeight / 2, near⟩,
      ⟨-sb.nearplaneWidth / 2, sb.nearplaneHeight / 2, near⟩,
      ⟨-sb.farplaneWidth / 2, sb.farplaneHeight / 2, far⟩,
      ⟨sb.farplaneWidth / 2, sb.farplaneHeight / 2, far⟩,
      ⟨sb.farplaneWidth / 2, -sb.farplaneHeight / 2, far⟩,
      ⟨-sb.farplaneWidth / 2, -sb.farplaneHeight / 2, far⟩ ]
  corners.map transformVertexToLightspace

/-- One axis of the running min/max loop of ShadowBox::update: note the
else-if — the max is not examined when the min was lowered. -/
def minmaxAxis (mn mx c : ℚ) : ℚ × ℚ :=
  if mn > c then (c, mx) else if mx < c then (mn, c) else (mn, mx)

/-- One iteration of the corner loop of ShadowBox::update, applied to all
three axes. -/
def minmaxStep (mm : Vec3 × Vec3) (c : Vec3) : Vec3 × Vec3 :=
  let xr := minmaxAxis mm.1.x mm.2.x c.x
  let yr := minmaxAxis mm.1.y mm.2.y c.y
  let zr := minmaxAxis mm.1.z mm.2.z c.z
  (⟨xr.1, yr.1, zr.1⟩, ⟨xr.2, yr.2, zr.2⟩)

/-- The seeding-plus-loop of ShadowBox::update: both corners start at
corner 0 and the loop then runs over all eight corners (the empty case is
unreachable — the corner list always has eight elements — and returns the
given previous corners unchanged). -/
def minmaxOverCorners (corners : List Vec3) (dflt : Vec3 × Vec3) : Vec3 × Vec3 :=
  match corners with
  | [] => dflt
  | c0 :: _ => corners.foldl minmaxStep (c0, c0)

/-- ShadowBox::update.  `cameraRotation` stands for the result of
Matrix4f::calculate_rotation_from_rpy(camera.roll, camera.pitch,
camera.yaw) (math/matrix.rs is not under src/; the claims quantify over
this matrix, covering every camera orientation).  Both corners are first
seeded from corner 0 and then the loop runs over all eight corners.  The
world-to-light transform is received but never read, as in the source. -/
def shadowBoxUpdate (sb : ShadowBox) (near far : ℚ)
    (cameraRotation : Mat4) (_worldToLightTransform : Mat4) : ShadowBox :=
  let forwardViewSpace := (cameraRotation.transform shadowBoxForward).xyz
  let frustumNearCenter := forwardViewSpace.smul (-near)
  let frustumFarCenter := forwardViewSpace.smul shadowDistance
  let corners := calcCameraFrustumCornersInLightspace sb near far
    cameraRotation forwardViewSpace frustumNearCenter frustumFarCenter
  let mm := minmaxOverCorners corners (sb.frustumMinCorner, sb.frustumMaxCorner)
  { sb with frustumMinCorner := mm.1, frustumMaxCorner := mm.2 }

/-- The light-space min/max corners exactly as claim C1 (spec section 4.3)
prescribes them — this definition follows the claim's words, for
comparison against shadowBoxUpdate: the eight corners of the
shadow-relevant sub-frustum (near plane at the near-clip distance, far
plane at SHADOW_DISTANCE), half extents -2*depth*tanFovHalf with height =
width / aspect, each corner transformed into light space by the
world-to-light transform before the running component-wise min/max. -/
def claimedLightspaceMinMax (near tanFovHalf aspect : ℚ)
    (worldToLight : Mat4) : Vec3 × Vec3 :=
  let nw := -2 * near * tanFovHalf
  let nh := nw / aspect
  let fw := -2 * shadowDistance * tanFovHalf
  let fh := fw / aspect
  let corners : List Vec3 :=
    [ ⟨nw / 2, nh / 2, near⟩,
      ⟨nw / 2, -nh / 2, near⟩,
      ⟨-nw / 2, -nh / 2, near⟩,
      ⟨-nw / 2, nh / 2, near⟩,
      ⟨-fw / 2, fh / 2, shadowDistance⟩,
      ⟨fw / 2, fh / 2, shadowDistance⟩,
      ⟨fw / 2, -fh / 2, shadowDistance⟩,
      ⟨-fw / 2, -fh / 2, shadowDistance⟩ ]
  let lit := corners.map (fun c => (worldToLight.transform ⟨c.x, c.y, c.z, 1⟩).xyz)
  match lit with
  | [] => (⟨0, 0, 0⟩, ⟨0, 0, 0⟩)
  | c0 :: _ => lit.foldl minmaxStep (c0, c0)

theorem minmaxAxis_le (mn mx c : ℚ) (h : mn ≤ mx) :
    (minmaxAxis mn mx c).1 ≤ (minmaxAxis mn mx c).2 := by
  unfold minmaxAxis
  split_ifs with h1 h2
  · exact le_trans (le_of_lt h1) h
  · exact le_trans h (le_of_lt h2)
  · exact h

theorem minmaxFoldLe (l : List Vec3) :
    ∀ mm : Vec3 × Vec3, mm.1.x ≤ mm.2.x → mm.1.y ≤ mm.2.y → mm.1.z ≤ mm.2.z →
    (l.foldl minmaxStep mm).1.x ≤ (l.foldl minmaxStep mm).2.x ∧
    (l.foldl minmaxStep mm).1.y ≤ (l.foldl minmaxStep mm).2.y ∧
    (l.foldl minmaxStep mm).1.z ≤ (l.foldl minmaxStep mm).2.z := by
  induction l with
  | nil => intro mm hx hy hz; exact ⟨hx, hy, hz⟩
  | cons c rest ih =>
    intro mm hx hy hz
    simp only [List.foldl_cons]
    exact ih (minmaxStep mm c)
      (minmaxAxis_le mm.1.x mm.2.x c.x hx)
      (minmaxAxis_le mm.1.y mm.2.y c.y hy)
      (minmaxAxis_le mm.1.z mm.2.z c.z hz)

theorem minmaxOverCornersConsLe (c : Vec3) (rest : List Vec3) (dflt : Vec3 × Vec3) :
    (minmaxOverCorners (c :: rest) dflt).1.x ≤ (minmaxOverCorners (c :: rest) dflt).2.x ∧
    (minmaxOverCorners (c :: rest) dflt).1.y ≤ (minmaxOverCorners (c :: rest) dflt).2.y ∧
    (minmaxOverCorners (c :: rest) dflt).1.z ≤ (minmaxOverCorners (c :: rest) dflt).2.z := by
  simp only [minmaxOverCorners]
  exact minmaxFoldLe (c :: rest) (c, c) le_rfl le_rfl le_rfl

/-- C5: for every camera orientation (every rotation matrix the camera's
roll/pitch/yaw can produce, including the all-zero degenerate case) and
every shadow box and near/far configuration, after ShadowBox::update the
minimum corner is component-wise at most the maximum corner. -/
theorem c5_min_le_max (sb : ShadowBox) (near far : ℚ)
    (cameraRotation worldToLight : Mat4) :
    (shadowBoxUpdate sb near far cameraRotation worldToLight).frustumMinCorner.x ≤
      (shadowBoxUpdate sb near far cameraRotation worldToLight).frustumMaxCorner.x ∧
    (shadowBoxUpdate sb near far cameraRotation worldToLight).frustumMinCorner.y ≤
      (shadowBoxUpdate sb near far cameraRotation worldToLight).frustumMaxCorner.y ∧
    (shadowBoxUpdate sb near far cameraRotation worldToLight).frustumMinCorner.z ≤
      (shadowBoxUpdate sb near far cameraRotation worldToLight).frustumMaxCorner.z := by
  simp only [shadowBoxUpdate, calcCameraFrustumCornersInLightspace,
    transformVertexToLightspace, List.map_cons, List.map_nil]
  exact minmaxOverCornersConsLe _ _ _

/-- C1: evaluation of ShadowBox::update at a concrete input (box built from
near = 1, far = 1000, tan(fov/2) = 1, aspect = 1).  The output is
identical under the identity world-to-light transform and under a
translation by 5 — update never applies the transform — and the maximum
corner sits at z = Display::FAR = 1000, while the corners the claim
prescribes (sub-frustum capped at SHADOW_DISTANCE, transformed into light
space) yield maximum z = 100 and do depend on the transform.  This
refutes the claim that the min/max runs over light-space-transformed
corners of the SHADOW_DISTANCE sub-frustum. -/
theorem c1_update_not_lightspace_subfrustum :
    (shadowBoxUpdate (shadowBoxNew 1 1000 1 1) 1 1000 mat4Id (mat4TranslateX 5) =
      shadowBoxUpdate (shadowBoxNew 1 1000 1 1) 1 1000 mat4Id mat4Id) ∧
    (shadowBoxUpdate (shadowBoxNew 1 1000 1 1) 1 1000 mat4Id mat4Id).frustumMaxCorner.z
      = 1000 ∧
    (claimedLightspaceMinMax 1 1 1 mat4Id).2.z = 100 ∧
    (claimedLightspaceMinMax 1 1 1 (mat4TranslateX 5)).2.x ≠
      (claimedLightspaceMinMax 1 1 1 mat4Id).2.x := by
  refine ⟨?_, ?_, ?_, ?_⟩ <;>
    norm_num [shadowBoxUpdate, shadowBoxNew, computeFrustumSizes,
      calcCameraFrustumCornersInLightspace, transformVertexToLightspace,
      claimedLightspaceMinMax, minmaxOverCorners, minmaxStep, minmaxAxis,
      Mat4.transform, Vec4.dot, Vec4.xyz, Vec3.smul, mat4Id, mat4TranslateX,
      shadowDistance, shadowBoxForward, List.foldl, List.map]

/-- C7: resolve fails deterministically (the source panics; embedded as
Except.error) on TextureId::Empty, on TextureId::FboTexture, and on a
Loading token absent from the token map; a Loading token that is recorded
resolves to Loaded with the recorded GPU handle. -/
theorem c7_resolve_failure_semantics (s : LoaderState) :
    resolve s TextureId.Empty = Except.error ResolveFault.emptyTexture ∧
    (∀ h : Nat, resolve s (TextureId.FboTexture h) =
      Except.error ResolveFault.fboAttachment) ∧
    (∀ t : Nat, alLookup s.textureTokenMap t = none →
      resolve s (TextureId.Loading t) = Except.error ResolveFault.unregisteredToken) ∧
    (∀ t h : Nat, alLookup s.textureTokenMap t = some h →
      resolve s (TextureId.Loading t) = Except.ok (TextureId.Loaded h)) := by
  refine ⟨rfl, fun h => rfl, fun t ht => ?_, fun t h ht => ?_⟩ <;> simp [resolve, ht]

/-- Witness for C7 at concrete inputs: a fresh loader rejects Empty,
FboTexture(3) and the unregistered Loading(1); a loader that recorded
token 1 with handle 7 resolves Loading(1) to Loaded(7). -/
theorem c7_resolve_witness :
    resolve loaderNew TextureId.Empty = Except.error ResolveFault.emptyTexture ∧
    resolve loaderNew (TextureId.FboTexture 3) =
      Except.error ResolveFault.fboAttachment ∧
    resolve loaderNew (TextureId.Loading 1) =
      Except.error ResolveFault.unregisteredToken ∧
    resolve { loaderNew with textureTokenMap := [(1, 7)] } (TextureId.Loading 1) =
      Except.ok (TextureId.Loaded 7) :=
  ⟨(c7_resolve_failure_semantics loaderNew).1,
   (c7_resolve_failure_semantics loaderNew).2.1 3,
   (c7_resolve_failure_semantics loaderNew).2.2.1 1 rfl,
   (c7_resolve_failure_semantics { loaderNew with textureTokenMap := [(1, 7)] }).2.2.2
     1 7 rfl⟩

/-- C10: resolve on Loaded(id) succeeds with the same id for every loader
state (resolve borrows the loader immutably, so it cannot mutate it), and
resolve is repeatable: whatever resolve accepts, resolving its output
again succeeds with the same output. -/
theorem c10_resolve_loaded_identity :
    (∀ (s : LoaderState) (id : Nat),
      resolve s (TextureId.Loaded id) = Except.ok (TextureId.Loaded id)) ∧
    (∀ (s : LoaderState) (x y : TextureId),
      resolve s x = Except.ok y → resolve s y = Except.ok y) := by
  constructor
  · intro s id
    rfl
  · intro s x y hxy
    cases x with
    | Empty => simp [resolve] at hxy
    | FboTexture h => simp [resolve] at hxy
    | Loaded id =>
      simp [resolve] at hxy
      subst hxy
      rfl
    | Loading t =>
      cases hl : alLookup s.textureTokenMap t with
      | none => simp [resolve, hl] at hxy
      | some h =>
        simp [resolve, hl] at hxy
        subst hxy
        rfl

/-- Witness for C10 at concrete inputs: Loaded(5) resolves to itself on a
fresh loader, and re-resolving the output of a successful Loading(1)
resolution (handle 7) succeeds unchanged. -/
theorem c10_resolve_witness :
    resolve loaderNew (TextureId.Loaded 5) = Except.ok (TextureId.Loaded 5) ∧
    resolve { loaderNew with textureTokenMap := [(1, 7)] } (TextureId.Loaded 7) =
      Except.ok (TextureId.Loaded 7) :=
  ⟨c10_resolve_loaded_identity.1 loaderNew 5,
   c10_resolve_loaded_identity.2 { loaderNew with textureTokenMap := [(1, 7)] }
     (TextureId.Loading 1) (TextureId.Loaded 7) rfl⟩

/-- C4: evaluation of the token generators at a concrete input.  On a fresh
loader, a standalone texture request returns Loading(1), and a following
cubemap request also returns Loading(1): texture_token_gen and
cubemap_token_gen are independent counters (yet both token families are
recorded in the one texture_token_map), so tokens are neither unique
across the loader's requests nor strictly increasing, refuting the
claim. -/
theorem c4_token_collision :
    (loadTextureInternal "a.png" {} {} loaderNew).1 = TextureId.Loading 1 ∧
    (loadCubeMap "cube" (loadTextureInternal "a.png" {} {} loaderNew).2).1 =
      TextureId.Loading 1 := by
  exact ⟨rfl, rfl⟩

/-- C2 amended: one call to update_resource_state processes at most one
completed decode result — the head of the channel — not every available
one.  If the channel is empty the call is a no-op; otherwise exactly the
head is consumed, the in-flight counter is decremented exactly once
(cubemap or not), and a standalone head is uploaded to the GPU and
recorded as token -> handle. -/
theorem c2_update_resource_state_step (s : LoaderState) :
    (s.channel = [] → updateResourceState s = some s) ∧
    (∀ (r : TextureResult) (rest : List TextureResult) (s2 : LoaderState),
      s.channel = r :: rest → updateResourceState s = some s2 →
      s2.channel = rest ∧
      s2.loadingTextureCnt = s.loadingTextureCnt - 1 ∧
      (r.extra.isCubemap = false →
        s2.textureTokenMap = alInsert s.textureTokenMap r.token s.glNextId ∧
        s2.texList = s.texList ++ [s.glNextId])) := by
  constructor
  · intro h
    simp [updateResourceState, h]
  · intro r rest s2 hch hup
    rw [updateResourceState.eq_def, hch] at hup
    by_cases hc : r.extra.isCubemap
    · simp only [hc, if_true] at hup
      cases hl : alLookup ({ s with channel := rest } : LoaderState).unprocessedCubemapTextures
          r.extra.cubemapToken with
      | none => rw [hl] at hup; exact absurd hup (by simp)
      | some unprocessed =>
        rw [hl] at hup
        by_cases hlen : (unprocessed ++ [r]).length = 6
        · simp only [hlen, if_true] at hup
          rw [loadCubeMapIntoGraphicsLib] at hup
          simp only [alLookup_alInsert_self, hlen, if_true] at hup
          cases hup
          refine ⟨rfl, rfl, fun hfalse => ?_⟩
          rw [hc] at hfalse
          exact absurd hfalse (by simp)
        · simp only [hlen, if_false] at hup
          cases hup
          refine ⟨rfl, rfl, fun hfalse => ?_⟩
          rw [hc] at hfalse
          exact absurd hfalse (by simp)
    · simp only [Bool.not_eq_true] at hc
      simp only [hc, Bool.false_eq_true, if_false] at hup
      cases hup
      exact ⟨rfl, rfl, fun _ => ⟨rfl, rfl⟩⟩

/-- A standalone decode result with token 1. -/
def c2res1 : TextureResult :=
  { tex := ⟨4, 4, [0]⟩, token := 1, params := {}, extra := {} }

/-- A standalone decode result with token 2. -/
def c2res2 : TextureResult :=
  { tex := ⟨4, 4, [1]⟩, token := 2, params := {}, extra := {} }

/-- A loader with two completed standalone results waiting in the channel. -/
def c2state : LoaderState :=
  { loaderNew with channel := [c2res1, c2res2], loadingTextureCnt := 2 }

/-- Counterexample to C2 as stated: with two completed results available in
the channel, a single update_resource_state call consumes only the first —
afterwards one result is still queued, token 2 is not recorded, and the
in-flight counter dropped by one, not two.  The claim that a single call
processes every available result is therefore false. -/
theorem c2_single_call_leaves_second_result :
    (updateResourceState c2state).map (fun s2 => s2.channel) = some [c2res2] ∧
    (updateResourceState c2state).map
      (fun s2 => alContains s2.textureTokenMap 2) = some false ∧
    (updateResourceState c2state).map
      (fun s2 => s2.loadingTextureCnt) = some 1 := by
  exact ⟨rfl, rfl, rfl⟩

/-- The state the two-result loader reaches after one drain call. -/
def c2after : LoaderState :=
  { channel := [c2res2], loadingTextureCnt := 1, texList := [0], glNextId := 1,
    textureTokenMap := [(1, 0)] }

/-- Witness for the amended C2 at concrete inputs: the empty channel is a
no-op, and the step characterization applies to the two-result state and
its concrete successor. -/
theorem c2_step_witness :
    updateResourceState loaderNew = some loaderNew ∧
    c2after.channel = [c2res2] ∧
    c2after.loadingTextureCnt = c2state.loadingTextureCnt - 1 ∧
    (c2res1.extra.isCubemap = false →
      c2after.textureTokenMap = alInsert c2state.textureTokenMap c2res1.token
        c2state.glNextId ∧
      c2after.texList = c2state.texList ++ [c2state.glNextId]) :=
  ⟨(c2_update_resource_state_step loaderNew).1 rfl,
   (c2_update_resource_state_step c2state).2 c2res1 [c2res2] c2after rfl rfl⟩

/-- The (face index, texture) pair recorded for one gl::tex_image_2d cubemap
face upload. -/
def facePair (r : TextureResult) : Nat × Texture2D := (r.extra.order, r.tex)

theorem stepCubemapNotLast (s : LoaderState) (r : TextureResult)
    (rest : List TextureResult) (ct : Nat) (acc : List TextureResult)
    (hch : s.channel = r :: rest) (hc : r.extra.isCubemap = true)
    (htk : r.extra.cubemapToken = ct)
    (hl : alLookup s.unprocessedCubemapTextures ct = some acc)
    (hlen : (acc ++ [r]).length ≠ 6) :
    updateResourceState s = some
      { s with
          channel := rest
          unprocessedCubemapTextures :=
            alInsert s.unprocessedCubemapTextures ct (acc ++ [r])
          loadingTextureCnt := s.loadingTextureCnt - 1 } := by
  rw [updateResourceState.eq_def, hch]
  simp only [hc, htk, if_true, hl, hlen, if_false]

theorem stepCubemapLast (s : LoaderState) (r : TextureResult)
    (rest : List TextureResult) (ct : Nat) (acc : List TextureResult)
    (hch : s.channel = r :: rest) (hc : r.extra.isCubemap = true)
    (htk : r.extra.cubemapToken = ct)
    (hl : alLookup s.unprocessedCubemapTextures ct = some acc)
    (hlen : (acc ++ [r]).length = 6) :
    updateResourceState s = some
      { s with
          channel := rest
          glNextId := s.glNextId + 1
          texList := s.texList ++ [s.glNextId]
          cubemapUploadLog := s.cubemapUploadLog ++ [(acc ++ [r]).map facePair]
          unprocessedCubemapTextures :=
            alRemove (alInsert s.unprocessedCubemapTextures ct (acc ++ [r])) ct
          textureTokenMap := alInsert s.textureTokenMap ct s.glNextId
          loadingTextureCnt := s.loadingTextureCnt - 1 } := by
  rw [updateResourceState.eq_def, hch]
  simp only [hc, htk, if_true, hl, hlen]
  rw [loadCubeMapIntoGraphicsLib]
  simp only [alLookup_alInsert_self, hlen, if_true]
  rfl

theorem drainCubemapAux (L : List TextureResult) :
    ∀ (s : LoaderState) (ct : Nat) (acc : List TextureResult),
    s.channel = L →
    alLookup s.unprocessedCubemapTextures ct = some acc →
    (∀ r ∈ L, r.extra.isCubemap = true ∧ r.extra.cubemapToken = ct) →
    acc.length + L.length = 6 →
    L ≠ [] →
    ∃ s2, updateIter L.length s = some s2 ∧
      s2.cubemapUploadLog = s.cubemapUploadLog ++ [(acc ++ L).map facePair] ∧
      alContains s2.textureTokenMap ct = true ∧
      s2.channel = [] := by
  induction L with
  | nil =>
    intro s ct acc _ _ _ _ hne
    exact absurd rfl hne
  | cons r L2 ih =>
    intro s ct acc hch hl hall hlen _
    have hr := hall r (by simp)
    by_cases hL2 : L2 = []
    · subst hL2
      have hlen6 : (acc ++ [r]).length = 6 := by
        simp only [List.length_append, List.length_cons, List.length_nil] at hlen ⊢
        omega
      have hstep := stepCubemapLast s r [] ct acc hch hr.1 hr.2 hl hlen6
      refine ⟨{ s with
          channel := []
          glNextId := s.glNextId + 1
          texList := s.texList ++ [s.glNextId]
          cubemapUploadLog := s.cubemapUploadLog ++ [(acc ++ [r]).map facePair]
          unprocessedCubemapTextures :=
            alRemove (alInsert s.unprocessedCubemapTextures ct (acc ++ [r])) ct
          textureTokenMap := alInsert s.textureTokenMap ct s.glNextId
          loadingTextureCnt := s.loadingTextureCnt - 1 }, ?_, rfl,
        alContains_alInsert_self _ _ _, rfl⟩
      simp only [List.length_cons, List.length_nil, updateIter, hstep]
    · have hlen2 : (acc ++ [r]).length ≠ 6 := by
        have hpos : 0 < L2.length := List.length_pos.mpr hL2
        simp only [List.length_append, List.length_cons, List.length_nil] at hlen ⊢
        omega
      have hstep := stepCubemapNotLast s r L2 ct acc hch hr.1 hr.2 hl hlen2
      obtain ⟨s2, hiter, hlog, hcont, hchan⟩ :=
        ih { s with
              channel := L2
              unprocessedCubemapTextures :=
                alInsert s.unprocessedCubemapTextures ct (acc ++ [r])
              loadingTextureCnt := s.loadingTextureCnt - 1 }
          ct (acc ++ [r]) rfl (alLookup_alInsert_self _ _ _)
          (fun q hq => hall q (by simp [hq]))
          (by simp only [List.length_append, List.length_cons,
                List.length_nil] at hlen ⊢; omega)
          hL2
      refine ⟨s2, ?_, ?_, hcont, hchan⟩
      · simp only [List.length_cons, updateIter, hstep]
        exact hiter
      · simpa [List.append_assoc] using hlog

/-- C3 amended: requesting one cubemap and draining all six face results,
in any arrival order, produces exactly one cubemap upload (the upload log
grows by exactly one entry), recorded under the cubemap token; each face's
pixel data is uploaded to the cubemap face target named by its stored face
index — the multiset of uploaded face indices is exactly {1..6} — but the
upload calls are issued in the faces' arrival order, not sorted 1..6. -/
theorem c3_cubemap_upload_once (arrivals : List TextureResult) (ct : Nat)
    (s : LoaderState)
    (horders : (arrivals.map (fun r => r.extra.order)).Perm [1, 2, 3, 4, 5, 6])
    (hcm : ∀ r ∈ arrivals, r.extra.isCubemap = true ∧ r.extra.cubemapToken = ct)
    (hch : s.channel = arrivals)
    (hentry : alLookup s.unprocessedCubemapTextures ct = some []) :
    (updateIter 6 s).map (fun s2 => s2.cubemapUploadLog) =
      some (s.cubemapUploadLog ++ [arrivals.map facePair]) ∧
    ((arrivals.map facePair).map Prod.fst).Perm [1, 2, 3, 4, 5, 6] ∧
    (updateIter 6 s).map (fun s2 => alContains s2.textureTokenMap ct) =
      some true ∧
    (updateIter 6 s).map (fun s2 => s2.channel) = some ([] : List TextureResult) := by
  have h6 : arrivals.length = 6 := by
    have := horders.length_eq
    simpa using this
  have hne : arrivals ≠ [] := by
    intro h
    rw [h] at h6
    simp at h6
  obtain ⟨s2, hiter, hlog, hcont, hchan⟩ :=
    drainCubemapAux arrivals s ct [] hch hentry hcm (by simpa using h6) hne
  rw [h6] at hiter
  refine ⟨?_, ?_, ?_, ?_⟩
  · rw [hiter]
    simp only [Option.map]
    rw [hlog]
    simp
  · have : (arrivals.map facePair).map Prod.fst =
        arrivals.map (fun r => r.extra.order) := by
      simp [facePair, List.map_map, Function.comp]
    rw [this]
    exact horders
  · rw [hiter]
    simp only [Option.map]
    simp [hcont]
  · rw [hiter]
    simp only [Option.map]
    simp [hchan]

/-- One cubemap face decode result for cubemap token 9. -/
def c3res (i : Nat) : TextureResult :=
  { tex := ⟨i, i, []⟩, token := i, params := {},
    extra := { isCubemap := true, order := i, cubemapToken := 9 } }

/-- Six face results arriving with face 2 first. -/
def c3arrivals : List TextureResult :=
  [c3res 2, c3res 1, c3res 3, c3res 4, c3res 5, c3res 6]

/-- A loader that has requested one cubemap (token 9) whose six faces have
completed in the order of c3arrivals. -/
def c3state : LoaderState :=
  { loaderNew with
      channel := c3arrivals
      loadingTextureCnt := 6
      unprocessedCubemapTextures := [(9, [])] }

/-- Counterexample to C3 as stated: when the six faces arrive in the order
2,1,3,4,5,6, the single cubemap upload issues its face bindings in that
arrival order — the bound face-target sequence is [2,1,3,4,5,6], not the
face-index order [1,2,3,4,5,6] the claim demands. -/
theorem c3_faces_bound_in_arrival_order :
    (updateIter 6 c3state).map
      (fun s2 => s2.cubemapUploadLog.map (fun upload => upload.map Prod.fst)) =
      some [[2, 1, 3, 4, 5, 6]] ∧
    ([[2, 1, 3, 4, 5, 6]] : List (List Nat)) ≠ [[1, 2, 3, 4, 5, 6]] := by
  exact ⟨rfl, by decide⟩

/-- Witness for the amended C3 at the concrete six-face state. -/
theorem c3_cubemap_witness :
    (updateIter 6 c3state).map (fun s2 => s2.cubemapUploadLog) =
      some (c3state.cubemapUploadLog ++ [c3arrivals.map facePair]) ∧
    ((c3arrivals.map facePair).map Prod.fst).Perm [1, 2, 3, 4, 5, 6] ∧
    (updateIter 6 c3state).map (fun s2 => alContains s2.textureTokenMap 9) =
      some true ∧
    (updateIter 6 c3state).map (fun s2 => s2.channel) =
      some ([] : List TextureResult) :=
  c3_cubemap_upload_once c3arrivals 9 c3state (by decide) (by decide) rfl rfl

/-- RawModel (src/src/models/loader.rs): GPU vertex-array handle and vertex
count. -/
structure RawModel : Type where
  vaoId : Nat := 0
  vertexCount : Nat := 0
deriving DecidableEq, Repr

/-- ModelTexture (src/src/models/loader.rs) with its Default impl values. -/
structure ModelTexture : Type where
  texId : TextureId := TextureId.Empty
  shineDamper : ℚ := 1
  reflectivity : ℚ := 0
  hasTransparency : Bool := false
  usesFakeLighting : Bool := false
  numberOfRowsInAtlas : Nat := 1
deriving DecidableEq, Repr

/-- TexturedModel (src/src/models/loader.rs). -/
structure TexturedModel : Type where
  rawModel : RawModel
  texture : ModelTexture
  normalMapTexId : Option TextureId := none
  extraInfoTexId : Option TextureId := none
deriving DecidableEq, Repr

/-- TexturedModel's PartialEq (src/src/models/loader.rs): equality is the
texture handle together with the vertex-array handle, nothing else. -/
def tmEq (a b : TexturedModel) : Bool :=
  a.texture.texId == b.texture.texId && a.rawModel.vaoId == b.rawModel.vaoId

/-- The batching key of a TexturedModel: the (texture handle, vertex-array
handle) pair that its PartialEq and Hash impls consider. -/
def tmKey (m : TexturedModel) : TextureId × Nat :=
  (m.texture.texId, m.rawModel.vaoId)

theorem tmEq_iff_tmKey (a b : TexturedModel) :
    tmEq a b = true ↔ tmKey a = tmKey b := by
  simp [tmEq, tmKey, Bool.and_eq_true, Prod.ext_iff]

theorem tmEq_self (a : TexturedModel) : tmEq a a = true := by
  simp [tmEq]

/-- Entity (src/src/entities/entity.rs): a reference to a shared
TexturedModel plus position, rotation (degrees) and uniform scale. -/
structure Entity : Type where
  model : TexturedModel
  position : Vec3 := ⟨0, 0, 0⟩
  rotationDeg : Vec3 := ⟨0, 0, 0⟩
  scale : ℚ := 1
deriving DecidableEq, Repr

/-- One iteration of MasterRenderer::group_entities_by_tex's loop: the
HashMap entry for the entity's TexturedModel (keyed through the
PartialEq/Hash impls, i.e. tmEq) is found or inserted, and the entity is
pushed onto its group.  The HashMap is embedded as an association list in
insertion order. -/
def addEntity (gs : List (TexturedModel × List Entity)) (e : Entity) :
    List (TexturedModel × List Entity) :=
  match gs with
  | [] => [(e.model, [e])]
  | (k, v) :: rest =>
    if tmEq k e.model then (k, v ++ [e]) :: rest
    else (k, v) :: addEntity rest e

/-- group_entities_by_tex (src/src/renderers/master_renderer.rs). -/
def groupEntitiesByTex (entities : List Entity) :
    List (TexturedModel × List Entity) :=
  entities.foldl addEntity []

/-- The key list of a group list. -/
def groupKeys (gs : List (TexturedModel × List Entity)) : List (TextureId × Nat) :=
  gs.map (fun p => tmKey p.1)

theorem addEntity_flatten_perm (gs : List (TexturedModel × List Entity))
    (e : Entity) :
    (((addEntity gs e).map Prod.snd).flatten).Perm
      ((gs.map Prod.snd).flatten ++ [e]) := by
  induction gs with
  | nil => simp [addEntity]
  | cons p rest ih =>
    by_cases h : tmEq p.1 e.model
    · cases p with
    | mk k v =>
      simp only at h
      simp only [addEntity, h, if_true, List.map_cons, List.flatten_cons]
      have h1 : (([e] : List Entity) ++ (rest.map Prod.snd).flatten).Perm
          ((rest.map Prod.snd).flatten ++ [e]) := List.perm_append_comm
      have h2 := h1.append_left v
      simpa [List.append_assoc] using h2
    · cases p with
    | mk k v =>
      simp only at h
      simp only [addEntity, h, if_false, List.map_cons, List.flatten_cons]
      have h2 := ih.append_left v
      simpa [List.append_assoc] using h2

theorem groupFold_flatten_perm (es : List Entity) :
    ∀ gs : List (TexturedModel × List Entity),
    (((es.foldl addEntity gs).map Prod.snd).flatten).Perm
      ((gs.map Prod.snd).flatten ++ es) := by
  induction es with
  | nil => intro gs; simp
  | cons e rest ih =>
    intro gs
    simp only [List.foldl_cons]
    refine (ih (addEntity gs e)).trans ?_
    refine ((addEntity_flatten_perm gs e).append_right rest).trans ?_
    have heq : ((gs.map Prod.snd).flatten ++ [e]) ++ rest =
        (gs.map Prod.snd).flatten ++ e :: rest := by
      simp
    rw [heq]

theorem addEntity_keyed (gs : List (TexturedModel × List Entity)) (e : Entity)
    (hinv : ∀ p ∈ gs, ∀ x ∈ p.2, tmEq p.1 x.model = true) :
    ∀ p ∈ addEntity gs e, ∀ x ∈ p.2, tmEq p.1 x.model = true := by
  induction gs with
  | nil =>
    intro p hp x hx
    simp only [addEntity, List.mem_singleton] at hp
    subst hp
    simp only [List.mem_singleton] at hx
    subst hx
    exact tmEq_self _
  | cons q rest ih =>
    intro p hp x hx
    by_cases h : tmEq q.1 e.model
    · rw [show addEntity (q :: rest) e = (q.1, q.2 ++ [e]) :: rest by
        simp [addEntity, h]] at hp
      rcases List.mem_cons.mp hp with hph | hpt
      · subst hph
        rcases List.mem_append.mp hx with hxv | hxe
        · exact hinv q (by simp) x hxv
        · rw [List.mem_singleton] at hxe
          subst hxe
          exact h
      · exact hinv p (by simp [hpt]) x hx
    · rw [show addEntity (q :: rest) e = (q.1, q.2) :: addEntity rest e by
        simp [addEntity, h]] at hp
      rcases List.mem_cons.mp hp with hph | hpt
      · subst hph
        exact hinv q (by simp) x hx
      · exact ih (fun w hw => hinv w (by simp [hw])) p hpt x hx

theorem addEntity_keys_of_mem (gs : List (TexturedModel × List Entity))
    (e : Entity) (h : tmKey e.model ∈ groupKeys gs) :
    groupKeys (addEntity gs e) = groupKeys gs := by
  induction gs with
  | nil => simp [groupKeys] at h
  | cons q rest ih =>
    by_cases hq : tmEq q.1 e.model
    · simp [addEntity, hq, groupKeys]
    · have hk : tmKey e.model ≠ tmKey q.1 := by
        intro hcontra
        exact hq ((tmEq_iff_tmKey q.1 e.model).mpr hcontra.symm)
      simp only [groupKeys, List.map_cons, List.mem_cons] at h
      rcases h with h1 | h2
      · exact absurd h1 hk
      · have hrec := ih (by simpa [groupKeys] using h2)
        simp only [groupKeys] at hrec
        simp [addEntity, hq, groupKeys, hrec]

theorem addEntity_keys_of_not_mem (gs : List (TexturedModel × List Entity))
    (e : Entity) (h : tmKey e.model ∉ groupKeys gs) :
    groupKeys (addEntity gs e) = groupKeys gs ++ [tmKey e.model] := by
  induction gs with
  | nil => simp [addEntity, groupKeys]
  | cons q rest ih =>
    simp only [groupKeys, List.map_cons, List.mem_cons] at h
    push_neg at h
    by_cases hq : tmEq q.1 e.model
    · exact absurd ((tmEq_iff_tmKey q.1 e.model).mp hq).symm h.1
    · have := ih (by simpa [groupKeys] using h.2)
      simp [addEntity, hq, groupKeys] at this ⊢
      exact this

theorem addEntity_keys_nodup (gs : List (TexturedModel × List Entity))
    (e : Entity) (h : (groupKeys gs).Nodup) :
    (groupKeys (addEntity gs e)).Nodup := by
  by_cases hm : tmKey e.model ∈ groupKeys gs
  · rw [addEntity_keys_of_mem gs e hm]
    exact h
  · rw [addEntity_keys_of_not_mem gs e hm]
    simp [List.nodup_append, h, hm]

theorem groupFold_keyed (es : List Entity) :
    ∀ gs : List (TexturedModel × List Entity),
    (∀ p ∈ gs, ∀ x ∈ p.2, tmEq p.1 x.model = true) →
    ∀ p ∈ es.foldl addEntity gs, ∀ x ∈ p.2, tmEq p.1 x.model = true := by
  induction es with
  | nil => intro gs hinv; exact hinv
  | cons e rest ih =>
    intro gs hinv
    simp only [List.foldl_cons]
    exact ih (addEntity gs e) (addEntity_keyed gs e hinv)

theorem groupFold_keys_nodup (es : List Entity) :
    ∀ gs : List (TexturedModel × List Entity),
    (groupKeys gs).Nodup → (groupKeys (es.foldl addEntity gs)).Nodup := by
  induction es with
  | nil => intro gs h; exact h
  | cons e rest ih =>
    intro gs h
    simp only [List.foldl_cons]
    exact ih (addEntity gs e) (addEntity_keys_nodup gs e h)

/-- C6: group_entities_by_tex partitions its input by TexturedModel
identity.  The concatenation of all groups is a permutation of the input
entity list (every entity in exactly one group, none omitted, none
duplicated); every member of a group has the group's (texture handle,
vertex-array handle) identity; group identities are pairwise distinct; and
hence any two groups containing entities of equal identity are one and the
same group — all entities sharing an identity land in exactly one common
group. -/
theorem c6_grouping_partition (es : List Entity) :
    ((((groupEntitiesByTex es).map Prod.snd).flatten).Perm es) ∧
    (∀ p ∈ groupEntitiesByTex es, ∀ x ∈ p.2, tmEq p.1 x.model = true) ∧
    ((groupKeys (groupEntitiesByTex es)).Nodup) ∧
    (∀ p ∈ groupEntitiesByTex es, ∀ q ∈ groupEntitiesByTex es,
      tmKey p.1 = tmKey q.1 → p = q) := by
  refine ⟨?_, ?_, ?_, ?_⟩
  · have := groupFold_flatten_perm es []
    simpa [groupEntitiesByTex] using this
  · exact groupFold_keyed es [] (by simp)
  · exact groupFold_keys_nodup es [] (by simp [groupKeys])
  · intro p hp q hq hkey
    have hnd : (groupKeys (groupEntitiesByTex es)).Nodup :=
      groupFold_keys_nodup es [] (by simp [groupKeys])
    exact List.inj_on_of_nodup_map hnd hp hq hkey

/-- A minimal TexturedModel distinguished by its vertex-array handle. -/
def c6tm (vao : Nat) : TexturedModel :=
  { rawModel := { vaoId := vao, vertexCount := 3 },
    texture := { texId := TextureId.Loaded vao } }

/-- Three entities, the first and third sharing one TexturedModel identity. -/
def c6e1 : Entity := { model := c6tm 1 }

def c6e2 : Entity := { model := c6tm 2 }

def c6e3 : Entity := { model := c6tm 1 }

def c6es : List Entity := [c6e1, c6e2, c6e3]

/-- Witness for C6 at a concrete entity list: entities 1 and 3 share one
identity and land in the one common group (c6tm 1, [c6e1, c6e3]); the
groups' flattening permutes the input and group keys are distinct. -/
theorem c6_grouping_witness :
    ((((groupEntitiesByTex c6es).map Prod.snd).flatten).Perm c6es) ∧
    tmEq (c6tm 1) c6e3.model = true ∧
    (groupKeys (groupEntitiesByTex c6es)).Nodup ∧
    ((c6tm 1, [c6e1, c6e3]) : TexturedModel × List Entity) =
      (c6tm 1, [c6e1, c6e3]) :=
  ⟨(c6_grouping_partition c6es).1,
   (c6_grouping_partition c6es).2.1 (c6tm 1, [c6e1, c6e3]) (by decide)
     c6e3 (by decide),
   (c6_grouping_partition c6es).2.2.1,
   (c6_grouping_partition c6es).2.2.2 (c6tm 1, [c6e1, c6e3]) (by decide)
     (c6tm 1, [c6e1, c6e3]) (by decide) rfl⟩

/-- Modelled from the spec: the hardware capabilities the renderers toggle
through the graphics API surface (the gl module is an external
collaborator; spec section 6 lists blend/depth/cull state toggles and the
clip-plane enable). -/
inductive Capability : Type
  | clipDistance0 : Capability
  | depthTest : Capability
  | cullFace : Capability
deriving DecidableEq, Repr

/-- The observable graphics calls issued while sequencing one frame of
MasterRenderer::render (src/src/renderers/master_renderer.rs). -/
inductive GlEvent : Type
  | enableCap (c : Capability) : GlEvent
  | disableCap (c : Capability) : GlEvent
  | pushGroup (id : Nat) : GlEvent
  | popGroup : GlEvent
  | bindFramebuffer (name : String) : GlEvent
  | drawCall (passId : Nat) : GlEvent
deriving DecidableEq, Repr

/-- Modelled from the spec: a water tile (the water-tile entity file is not
under src/); only its water height and its presence matter to pass
sequencing. -/
structure WaterTile : Type where
  height : ℚ := 0
deriving DecidableEq, Repr

/-- Modelled from the spec: a terrain chunk, opaque to pass sequencing. -/
structure Terrain : Type where
  id : Nat := 0
deriving DecidableEq, Repr

/-- Modelled from the spec: a per-category renderer draws one batch with one
draw call per entity; per spec sections 4.5 and 6 the clip plane reaches
the sub-renderers as a shader uniform (load_clip_plane), so sub-renderer
work contributes draw calls and no capability toggles; the clip-plane
capability is toggled only in the master renderer's water passes. -/
def batchedDrawEvents (passId : Nat) (entities : List Entity) : List GlEvent :=
  ((groupEntitiesByTex entities).map
    (fun g => g.2.map (fun _ => GlEvent.drawCall passId))).flatten

/-- Modelled from the spec: terrain draw calls, one per terrain. -/
def terrainDrawEvents (terrains : List Terrain) : List GlEvent :=
  terrains.map (fun _ => GlEvent.drawCall 4)

/-- Modelled from the spec: the skybox draw. -/
def skyboxDrawEvents : List GlEvent := [GlEvent.drawCall 5]

/-- Modelled from the spec: the player draw. -/
def playerDrawEvents : List GlEvent := [GlEvent.drawCall 2]

/-- Modelled from the spec: the water-surface composite draw, one call per
water tile. -/
def waterSurfaceDrawEvents (waterTiles : List WaterTile) : List GlEvent :=
  waterTiles.map (fun _ => GlEvent.drawCall 6)

/-- Modelled from the spec: env-map entity draws. -/
def envMapDrawEvents (entities : List Entity) : List GlEvent :=
  entities.map (fun _ => GlEvent.drawCall 2)

/-- Modelled from the spec: instanced particle draws. -/
def particleDrawEvents (particleBatches : Nat) : List GlEvent :=
  List.replicate particleBatches (GlEvent.drawCall 7)

/-- MasterRenderer::prepare: enable back-face culling and the depth test
(clear_color/clear are not capability toggles). -/
def prepareEvents : List GlEvent :=
  [GlEvent.enableCap Capability.cullFace, GlEvent.enableCap Capability.depthTest]

/-- MasterRenderer::render_pass: entity batch pass, player, normal-mapped
batch pass, terrain pass, skybox, each inside its debug group, in source
order. -/
def renderPassEvents (entities normalMapped : List Entity)
    (terrains : List Terrain) : List GlEvent :=
  [GlEvent.pushGroup 2] ++ prepareEvents ++
    batchedDrawEvents 2 entities ++ playerDrawEvents ++ [GlEvent.popGroup] ++
  [GlEvent.pushGroup 3] ++ batchedDrawEvents 3 normalMapped ++ [GlEvent.popGroup] ++
  [GlEvent.pushGroup 4] ++ terrainDrawEvents terrains ++ [GlEvent.popGroup] ++
  [GlEvent.pushGroup 5] ++ skyboxDrawEvents ++ [GlEvent.popGroup]

/-- MasterRenderer::do_shadowmap_render_passes: shadow FBO bound, shadow
draws for entity batches, normal-mapped batches, the player and the
terrain. -/
def doShadowmapRenderPassesEvents (entities normalMapped : List Entity)
    (terrains : List Terrain) : List GlEvent :=
  [GlEvent.pushGroup 0, GlEvent.bindFramebuffer "ShadowMapFBO"] ++
  batchedDrawEvents 0 entities ++ batchedDrawEvents 0 normalMapped ++
  playerDrawEvents ++ terrainDrawEvents terrains ++ [GlEvent.popGroup]

/-- MasterRenderer::do_water_render_passes: an empty water-tile list
returns before anything is issued; otherwise the clip-plane capability is
enabled, the reflection then refraction passes render the clipped scene,
and the capability is disabled. -/
def doWaterRenderPassesEvents (waterTiles : List WaterTile)
    (entities normalMapped : List Entity) (terrains : List Terrain) : List GlEvent :=
  if waterTiles.isEmpty then []
  else
    [GlEvent.pushGroup 1, GlEvent.enableCap Capability.clipDistance0,
     GlEvent.bindFramebuffer "ReflectionFBO"] ++
    renderPassEvents entities normalMapped terrains ++
    [GlEvent.bindFramebuffer "RefractionFBO"] ++
    renderPassEvents entities normalMapped terrains ++
    [GlEvent.disableCap Capability.clipDistance0, GlEvent.popGroup]

/-- MasterRenderer::render: shadow pass, water passes, main camera pass
into the camera texture FBO, water composite, env-map entities, particles,
restore of the default framebuffer. -/
def renderEvents (entities normalMapped envMapped : List Entity)
    (terrains : List Terrain) (waterTiles : List WaterTile)
    (particleBatches : Nat) : List GlEvent :=
  doShadowmapRenderPassesEvents entities normalMapped terrains ++
  doWaterRenderPassesEvents waterTiles entities normalMapped terrains ++
  [GlEvent.bindFramebuffer "CameraTextureMultisampled"] ++
  renderPassEvents entities normalMapped terrains ++
  waterSurfaceDrawEvents waterTiles ++
  envMapDrawEvents envMapped ++
  particleDrawEvents particleBatches ++
  [GlEvent.bindFramebuffer "default"]

/-- Whether a graphics call toggles the clip-plane capability
(glEnable/glDisable of CLIP_DISTANCE0). -/
def isClipToggle : GlEvent → Bool
  | GlEvent.enableCap Capability.clipDistance0 => true
  | GlEvent.disableCap Capability.clipDistance0 => true
  | _ => false

/-- The number of clip-plane capability toggles in a frame trace. -/
def clipToggleCount (events : List GlEvent) : Nat :=
  events.countP isClipToggle

theorem countPClipDrawCalls {α : Type} (l : List α) (p : Nat) :
    (l.map (fun _ => GlEvent.drawCall p)).countP isClipToggle = 0 := by
  induction l with
  | nil => rfl
  | cons a rest ih => simp_all [List.countP_cons, isClipToggle]

theorem countPClipReplicate (n p : Nat) :
    (List.replicate n (GlEvent.drawCall p)).countP isClipToggle = 0 := by
  induction n with
  | zero => rfl
  | succ m ih => simp_all [List.replicate_succ, List.countP_cons, isClipToggle]

theorem countPClipGroupSum (gs : List (TexturedModel × List Entity)) (p : Nat) :
    (gs.map (List.countP isClipToggle ∘
      fun g => List.replicate g.2.length (GlEvent.drawCall p))).sum = 0 := by
  induction gs with
  | nil => rfl
  | cons g rest ih =>
    simp [Function.comp, countPClipReplicate, ih]

/-- C8: with an empty water-tile list, the reflection/refraction pass is
skipped entirely (it issues no graphics calls at all) and the whole frame
issues zero clip-plane capability toggles, for every scene content. -/
theorem c8_no_clip_toggle_without_water (entities normalMapped envMapped : List Entity)
    (terrains : List Terrain) (particleBatches : Nat) :
    doWaterRenderPassesEvents [] entities normalMapped terrains = [] ∧
    clipToggleCount
      (renderEvents entities normalMapped envMapped terrains [] particleBatches) = 0 := by
  constructor
  · rfl
  · simp [renderEvents, doShadowmapRenderPassesEvents, doWaterRenderPassesEvents,
      renderPassEvents, prepareEvents, skyboxDrawEvents, playerDrawEvents,
      waterSurfaceDrawEvents, envMapDrawEvents, particleDrawEvents,
      terrainDrawEvents, batchedDrawEvents, clipToggleCount,
      List.countP_append, List.countP_cons, isClipToggle,
      countPClipDrawCalls, countPClipGroupSum, countPClipReplicate]

/-- create_vao (src/src/models/loader.rs): fresh vertex-array handle,
recorded in vao_list. -/
def createVao (s : LoaderState) : Nat × LoaderState :=
  let vaoId := s.glNextId
  (vaoId, { s with glNextId := s.glNextId + 1, vaoList := s.vaoList ++ [vaoId] })

/-- bind_indices_buffer: fresh buffer handle recorded in vbo_list (the
index upload itself is a pure graphics effect). -/
def bindIndicesBuffer (_indices : List Nat) (s : LoaderState) : LoaderState :=
  let vboId := s.glNextId
  { s with glNextId := s.glNextId + 1, vboList := s.vboList ++ [vboId] }

/-- store_data_in_attribute_list: fresh buffer handle recorded in vbo_list. -/
def storeDataInAttributeList (_attributeNum _coordSize _dataLen : Nat)
    (s : LoaderState) : LoaderState :=
  let vboId := s.glNextId
  { s with glNextId := s.glNextId + 1, vboList := s.vboList ++ [vboId] }

/-- load_to_vao: vao + index buffer + positions, texture coords and
normals attributes; vertex count is the index count. -/
def loadToVao (positions textureCoords : List ℚ) (indices : List Nat)
    (normals : List ℚ) (s : LoaderState) : RawModel × LoaderState :=
  let v := createVao s
  let s1 := bindIndicesBuffer indices v.2
  let s2 := storeDataInAttributeList 0 3 positions.length s1
  let s3 := storeDataInAttributeList 1 2 textureCoords.length s2
  let s4 := storeDataInAttributeList 2 3 normals.length s3
  ({ vaoId := v.1, vertexCount := indices.length }, s4)

/-- load_to_vao_with_normal_map: as load_to_vao plus the tangent stream. -/
def loadToVaoWithNormalMap (positions textureCoords : List ℚ)
    (indices : List Nat) (normals tangents : List ℚ) (s : LoaderState) :
    RawModel × LoaderState :=
  let v := createVao s
  let s1 := bindIndicesBuffer indices v.2
  let s2 := storeDataInAttributeList 0 3 positions.length s1
  let s3 := storeDataInAttributeList 1 2 textureCoords.length s2
  let s4 := storeDataInAttributeList 2 3 normals.length s3
  let s5 := storeDataInAttributeList 3 4 tangents.length s4
  ({ vaoId := v.1, vertexCount := indices.length }, s5)

/-- load_simple_model_to_vao: vao + one position stream; the source sets
vertex_count to positions.len() / 2. -/
def loadSimpleModelToVao (positions : List ℚ) (dimension : Nat)
    (s : LoaderState) : RawModel × LoaderState :=
  let v := createVao s
  let s1 := storeDataInAttributeList 0 dimension positions.length v.2
  ({ vaoId := v.1, vertexCount := positions.length / 2 }, s1)

/-- create_empty_float_vbo. -/
def createEmptyFloatVbo (_floatCount : Nat) (s : LoaderState) : Nat × LoaderState :=
  let vboId := s.glNextId
  (vboId, { s with glNextId := s.glNextId + 1, vboList := s.vboList ++ [vboId] })

/-- create_empty_float_vbo_for_attrib. -/
def createEmptyFloatVboForAttrib (_attributeNum _itemCount _coordSize : Nat)
    (s : LoaderState) : Nat × LoaderState :=
  let vboId := s.glNextId
  (vboId, { s with glNextId := s.glNextId + 1, vboList := s.vboList ++ [vboId] })

/-- add_instanced_attrib: only graphics-side binds; loader state unchanged. -/
def addInstancedAttrib (_vao _vbo _attrib _componentsPerAttribute
    _instancedDataLength _offset : Nat) (s : LoaderState) : LoaderState := s

/-- DynamicVertexIndexedModel (src/src/models/loader.rs). -/
structure DynamicVertexIndexedModel : Type where
  rawModel : RawModel
  streamDrawVbo : Nat
deriving DecidableEq, Repr

/-- load_dynamic_model_with_indices_to_vao. -/
def loadDynamicModelWithIndicesToVao (uniqueVertexCount : Nat)
    (indices : List Nat) (dimension : Nat) (s : LoaderState) :
    DynamicVertexIndexedModel × LoaderState :=
  let v := createVao s
  let s1 := bindIndicesBuffer indices v.2
  let vb := createEmptyFloatVboForAttrib 0 uniqueVertexCount dimension s1
  ({ rawModel := { vaoId := v.1, vertexCount := indices.length },
     streamDrawVbo := vb.1 }, vb.2)

/-- TerrainTexture (src/src/models/loader.rs). -/
structure TerrainTexture : Type where
  texId : TextureId
deriving DecidableEq, Repr

/-- TerrainTexturePack (src/src/models/loader.rs). -/
structure TerrainTexturePack : Type where
  backgroundTexture : TerrainTexture
  rTexture : TerrainTexture
  gTexture : TerrainTexture
  bTexture : TerrainTexture
deriving DecidableEq, Repr

/-- TerrainModel (src/src/models/loader.rs): raw model plus height map. -/
structure TerrainModel : Type where
  rawModel : RawModel
  heightMap : List (List ℚ)
deriving DecidableEq, Repr

/-- GuiModel: imported from the loader module by resource_manager.rs; its
definition is not under src/ — modelled from its use as a raw quad model. -/
structure GuiModel : Type where
  rawModel : RawModel
deriving DecidableEq, Repr

/-- SkyboxModel (src/src/models/loader.rs). -/
structure SkyboxModel : Type where
  rawModel : RawModel
  dayTextureId : TextureId
  nightTextureId : TextureId
  cyclesDayNight : Bool := false
deriving DecidableEq, Repr

/-- WaterModel (src/src/models/loader.rs). -/
structure WaterModel : Type where
  rawModel : RawModel
  dudvTexId : TextureId
  normalMapTexId : TextureId
deriving DecidableEq, Repr

/-- ParticleModel (src/src/models/loader.rs). -/
structure ParticleModel : Type where
  rawModel : RawModel := {}
  streamDrawVbo : Nat := 0
deriving DecidableEq, Repr

/-- ParticleTexture (src/src/models/loader.rs), Default values. -/
structure ParticleTexture : Type where
  texId : TextureId := TextureId.Empty
  numberOfRowsInAtlas : Nat := 0
  additive : Bool := false
deriving DecidableEq, Repr

/-- Modelled from the spec: a bitmap-font descriptor/atlas pair (the guis
text module is an external collaborator): FontType::new keeps the .fnt
descriptor name and the atlas texture id. -/
structure FontType : Type where
  fntFile : String
  textureId : TextureId
deriving DecidableEq, Repr

/-- Modelled from the spec: FontType::new. -/
def fontTypeNew (fntFile : String) (textureId : TextureId) : FontType :=
  ⟨fntFile, textureId⟩

/-- TextureParams::mipmapped_texture. -/
def mipmappedTexture (mipmapLod : ℚ) : TextureParams :=
  { useMipmap := true, mipmapLod := mipmapLod }

/-- load_texture: standalone request wrapped in a default ModelTexture. -/
def loadTexture (fileName : String) (params : TextureParams)
    (s : LoaderState) : ModelTexture × LoaderState :=
  let r := loadTextureInternal fileName params {} s
  (({ texId := r.1 } : ModelTexture), r.2)

/-- load_particle_texture. -/
def loadParticleTexture (fileName : String) (params : TextureParams)
    (s : LoaderState) : ParticleTexture × LoaderState :=
  let r := loadTextureInternal fileName params {} s
  (({ texId := r.1 } : ParticleTexture), r.2)

/-- load_terrain_texture. -/
def loadTerrainTexture (fileName : String) (params : TextureParams)
    (s : LoaderState) : TerrainTexture × LoaderState :=
  let r := loadTextureInternal fileName params {} s
  (({ texId := r.1 } : TerrainTexture), r.2)

/-- ModelType (src/src/models/resource_manager.rs). -/
inductive ModelType : Type
  | Grass | Fern | Player | Tree | LowPolyTree | Flowers
  | Crate | Lamp | ToonRocks | BobbleTree | Barrel | Boulder
deriving DecidableEq, Repr

/-- AtlasProps (src/src/models/resource_manager.rs). -/
structure AtlasProps : Type where
  rows : Nat
deriving DecidableEq, Repr

/-- ModelProps (src/src/models/resource_manager.rs). -/
structure ModelProps : Type where
  hasTransparency : Bool
  usesFakeLighting : Bool
  usesMipmaps : Bool
  shineDamper : ℚ
  reflectivity : ℚ
  atlasProps : AtlasProps
  normalMap : Option String
deriving DecidableEq, Repr

/-- ModelProps::get_texture_params. -/
def ModelProps.getTextureParams (p : ModelProps) : TextureParams :=
  if p.usesMipmaps then
    if p.normalMap.isSome then mipmappedTexture (-24/10)
    else mipmappedTexture (-4/10)
  else {}

/-- Model (src/src/models/resource_manager.rs): model type, OBJ file,
texture file and properties. -/
structure Model : Type where
  modelType : ModelType
  objFile : String
  textureFile : String
  props : ModelProps

/-- Models::GUI_PROPS. -/
def GUI_PROPS : ModelProps :=
  { hasTransparency := false, usesFakeLighting := false, usesMipmaps := false,
    shineDamper := 1, reflectivity := 0, atlasProps := ⟨1⟩, normalMap := none }

/-- Modelled from the spec: the mesh arrays produced by the external OBJ
parsing collaborator (vertex/index/normal/tangent arrays). -/
structure ModelData : Type where
  vertices : List ℚ := []
  textureCoords : List ℚ := []
  indices : List Nat := []
  normals : List ℚ := []
  tangents : List ℚ := []

def HEALTHBAR_TEXTURE : String := "res/textures/health.png"

def GUI_BACKGROUND_TEXTURE : String := "res/textures/gui_background.png"

def COPPER_SDF_FONT_TYPE : String := "res/fonts/copperDf"

def PARTICLE_ATLAS : String × Nat := ("res/textures/particles/particleAtlas.png", 4)

def SMOKE_ATLAS : String × Nat := ("res/textures/particles/smoke.png", 8)

def FIRE_ATLAS : String × Nat := ("res/textures/particles/fire.png", 8)

/-- ParticleModel::INSTANCED_DATA_LENGTH. -/
def INSTANCED_DATA_LENGTH : Nat := 21

/-- ParticleModel::MAX_INSTANCES. -/
def MAX_INSTANCES : Nat := 10000

/-- ResourceManager state (src/src/models/resource_manager.rs): the owned
loader plus one memo field or map per logical resource. -/
structure ResourceManager : Type where
  loader : LoaderState := {}
  texturePack : Option TerrainTexturePack := none
  blendTexture : Option TerrainTexture := none
  terrainModel : Option TerrainModel := none
  guiModel : Option GuiModel := none
  skyboxModel : Option SkyboxModel := none
  waterModel : Option WaterModel := none
  particleModel : Option ParticleModel := none
  debugModel : Option DynamicVertexIndexedModel := none
  models : List (ModelType × TexturedModel) := []
  guiTextures : List (String × TextureId) := []
  fontTypes : List (String × FontType) := []
  particleTextures : List ((String × Nat) × ParticleTexture) := []

/-- ResourceManager::init: memoized model load keyed by ModelType; a
second call for an already-initialized key returns immediately.
load_obj_model and load_simple_obj_model are the external OBJ collaborator,
passed as the objData / simpleObjData parameters. -/
def init (objData simpleObjData : String → ModelData) (m : Model)
    (s : ResourceManager) : ResourceManager :=
  if alContains s.models m.modelType then s
  else
    let loaded :=
      match m.props.normalMap with
      | some normalMapTexture =>
        let modelData := objData m.objFile
        let nm := loadTexture normalMapTexture {} s.loader
        let rm := loadToVaoWithNormalMap modelData.vertices
          modelData.textureCoords modelData.indices modelData.normals
          modelData.tangents nm.2
        (rm.1, some nm.1.texId, rm.2)
      | none =>
        let modelData := simpleObjData m.objFile
        let rm := loadToVao modelData.vertices modelData.textureCoords
          modelData.indices modelData.normals s.loader
        (rm.1, none, rm.2)
    let tex := loadTexture m.textureFile m.props.getTextureParams loaded.2.2
    let texture : ModelTexture :=
      { tex.1 with
          hasTransparency := m.props.hasTransparency
          usesFakeLighting := m.props.usesFakeLighting
          shineDamper := m.props.shineDamper
          reflectivity := m.props.reflectivity
          numberOfRowsInAtlas := m.props.atlasProps.rows }
    let model : TexturedModel :=
      { rawModel := loaded.1, texture := texture, normalMapTexId := loaded.2.1 }
    { s with loader := tex.2, models := alInsert s.models m.modelType model }

/-- ResourceManager::init_terrain_textures: two separately guarded memo
fields (the four-texture pack and the blend map). -/
def initTerrainTextures (s : ResourceManager) : ResourceManager :=
  let s1 :=
    match s.texturePack with
    | some _ => s
    | none =>
      let bg := loadTerrainTexture "res/textures/terrain/grassy2.png"
        (mipmappedTexture (-4/10)) s.loader
      let r := loadTerrainTexture "res/textures/terrain/mud.png"
        (mipmappedTexture (-4/10)) bg.2
      let g := loadTerrainTexture "res/textures/terrain/grassFlowers.png"
        (mipmappedTexture (-4/10)) r.2
      let b := loadTerrainTexture "res/textures/terrain/path.png"
        (mipmappedTexture (-4/10)) g.2
      { s with loader := b.2,
               texturePack := some ⟨bg.1, r.1, g.1, b.1⟩ }
  match s1.blendTexture with
  | some _ => s1
  | none =>
    let bl := loadTerrainTexture "res/textures/terrain/blendMap.png"
      (mipmappedTexture (-4/10)) s1.loader
    { s1 with loader := bl.2, blendTexture := some bl.1 }

/-- ResourceManager::init_terrain_model; Terrain::generate_terrain lives in
the entities module, not under src/ — passed as the genTerrain parameter
(modelled from the spec: it builds one terrain GPU model through the
loader). -/
def initTerrainModel (genTerrain : LoaderState → TerrainModel × LoaderState)
    (s : ResourceManager) : ResourceManager :=
  match s.terrainModel with
  | some _ => s
  | none =>
    let t := genTerrain s.loader
    { s with loader := t.2, terrainModel := some t.1 }

/-- ResourceManager::init_gui_textures: one guarded load per gui texture
key. -/
def initGuiTextures (s : ResourceManager) : ResourceManager :=
  let props := GUI_PROPS
  let s1 :=
    if alContains s.guiTextures HEALTHBAR_TEXTURE then s
    else
      let t := loadGuiTexture HEALTHBAR_TEXTURE props.getTextureParams s.loader
      { s with loader := t.2,
               guiTextures := alInsert s.guiTextures HEALTHBAR_TEXTURE t.1 }
  if alContains s1.guiTextures GUI_BACKGROUND_TEXTURE then s1
  else
    let t := loadGuiTexture GUI_BACKGROUND_TEXTURE props.getTextureParams s1.loader
    { s1 with loader := t.2,
              guiTextures := alInsert s1.guiTextures GUI_BACKGROUND_TEXTURE t.1 }

/-- ResourceManager::init_gui_model: the full-screen quad. -/
def initGuiModel (s : ResourceManager) : ResourceManager :=
  match s.guiModel with
  | some _ => s
  | none =>
    let positions : List ℚ := [-1, 1, -1, -1, 1, 1, 1, -1]
    let rm := loadSimpleModelToVao positions 2 s.loader
    { s with loader := rm.2, guiModel := some ⟨rm.1⟩ }

/-- The 36-vertex skybox cube of init_skybox (SIZE = 500). -/
def skyboxVertexPositions : List ℚ :=
  let size : ℚ := 500
  [ -size,  size, -size,  -size, -size, -size,   size, -size, -size,
     size, -size, -size,   size,  size, -size,  -size,  size, -size,
    -size, -size,  size,  -size, -size, -size,  -size,  size, -size,
    -size,  size, -size,  -size,  size,  size,  -size, -size,  size,
     size, -size, -size,   size, -size,  size,   size,  size,  size,
     size,  size,  size,   size,  size, -size,   size, -size, -size,
    -size, -size,  size,  -size,  size,  size,   size,  size,  size,
     size,  size,  size,   size, -size,  size,  -size, -size,  size,
    -size,  size, -size,   size,  size, -size,   size,  size,  size,
     size,  size,  size,  -size,  size,  size,  -size,  size, -size,
    -size, -size, -size,  -size, -size,  size,   size, -size, -size,
     size, -size, -size,  -size, -size,  size,   size, -size,  size ]

/-- ResourceManager::init_skybox: two cubemap requests (day, night) plus
the skybox cube model. -/
def initSkybox (s : ResourceManager) : ResourceManager :=
  match s.skyboxModel with
  | some _ => s
  | none =>
    let day := loadCubeMap "res/textures/cube_maps/day_skybox" s.loader
    let night := loadCubeMap "res/textures/cube_maps/night_skybox" day.2
    let rm := loadSimpleModelToVao skyboxVertexPositions 3 night.2
    { s with loader := rm.2,
             skyboxModel := some
               { rawModel := rm.1, dayTextureId := day.1,
                 nightTextureId := night.1 } }

/-- ResourceManager::init_water: quad model plus dudv and normal-map
textures. -/
def initWater (s : ResourceManager) : ResourceManager :=
  match s.waterModel with
  | some _ => s
  | none =>
    let positions : List ℚ := [-1, 0, 1, 1, 0, 1, -1, 0, -1, 1, 0, -1]
    let rm := loadSimpleModelToVao positions 3 s.loader
    let dudv := loadTerrainTexture "res/textures/water/waterDUDV.png" {} rm.2
    let nm := loadTerrainTexture "res/textures/water/normalMap.png" {} dudv.2
    { s with loader := nm.2,
             waterModel := some ⟨rm.1, dudv.1.texId, nm.1.texId⟩ }

/-- ResourceManager::init_fonts: the font vec holds the single copper SDF
font; one guarded load of its atlas texture. -/
def initFonts (s : ResourceManager) : ResourceManager :=
  if alContains s.fontTypes COPPER_SDF_FONT_TYPE then s
  else
    let fntFileName := COPPER_SDF_FONT_TYPE ++ "." ++ "fnt"
    let fntTextureAtlasName := COPPER_SDF_FONT_TYPE ++ "." ++ "png"
    let t := loadGuiTexture fntTextureAtlasName {} s.loader
    { s with loader := t.2,
             fontTypes := alInsert s.fontTypes COPPER_SDF_FONT_TYPE
               (fontTypeNew fntFileName t.1) }

/-- ResourceManager::init_particle_model: the particle quad, the stream
vbo sized INSTANCED_DATA_LENGTH * MAX_INSTANCES, and six instanced attrib
binds. -/
def initParticleModel (s : ResourceManager) : ResourceManager :=
  match s.particleModel with
  | some _ => s
  | none =>
    let quadTriangStrip : List ℚ := [-1/2, 1/2, -1/2, -1/2, 1/2, 1/2, 1/2, -1/2]
    let rm := loadSimpleModelToVao quadTriangStrip 2 s.loader
    let vb := createEmptyFloatVbo (INSTANCED_DATA_LENGTH * MAX_INSTANCES) rm.2
    let l1 := addInstancedAttrib rm.1.vaoId vb.1 1 4 INSTANCED_DATA_LENGTH 0 vb.2
    let l2 := addInstancedAttrib rm.1.vaoId vb.1 2 4 INSTANCED_DATA_LENGTH 4 l1
    let l3 := addInstancedAttrib rm.1.vaoId vb.1 3 4 INSTANCED_DATA_LENGTH 8 l2
    let l4 := addInstancedAttrib rm.1.vaoId vb.1 4 4 INSTANCED_DATA_LENGTH 12 l3
    let l5 := addInstancedAttrib rm.1.vaoId vb.1 5 4 INSTANCED_DATA_LENGTH 16 l4
    let l6 := addInstancedAttrib rm.1.vaoId vb.1 6 1 INSTANCED_DATA_LENGTH 20 l5
    { s with loader := l6,
             particleModel := some { rawModel := rm.1, streamDrawVbo := vb.1 } }

/-- One iteration of init_particle_textures' loop over the three atlas
props: one guarded load and insert. -/
def addParticleTextureEntry (textureProp : String × Nat)
    (s : ResourceManager) : ResourceManager :=
  if alContains s.particleTextures textureProp then s
  else
    let pt := loadParticleTexture textureProp.1 {} s.loader
    let particleTexture : ParticleTexture :=
      { pt.1 with numberOfRowsInAtlas := textureProp.2 }
    { s with loader := pt.2,
             particleTextures :=
               alInsert s.particleTextures textureProp particleTexture }

/-- ResourceManager::init_particle_textures: the loop over
[PARTICLE_ATLAS, FIRE_ATLAS, SMOKE_ATLAS] in vec order. -/
def initParticleTextures (s : ResourceManager) : ResourceManager :=
  addParticleTextureEntry SMOKE_ATLAS
    (addParticleTextureEntry FIRE_ATLAS
      (addParticleTextureEntry PARTICLE_ATLAS s))

/-- The cuboid index list of init_debug_cuboid_model. -/
def debugCuboidIndices : List Nat :=
  [0, 1, 2, 0, 3, 2, 0, 1, 5, 0, 4, 5, 0, 3, 7, 0, 4, 7,
   6, 5, 4, 6, 7, 4, 6, 2, 3, 6, 7, 3, 6, 2, 1, 6, 5, 1]

/-- ResourceManager::init_debug_cuboid_model. -/
def initDebugCuboidModel (s : ResourceManager) : ResourceManager :=
  match s.debugModel with
  | some _ => s
  | none =>
    let m := loadDynamicModelWithIndicesToVao 8 debugCuboidIndices 3 s.loader
    { s with loader := m.2, debugModel := some m.1 }

theorem initIdem (objData simpleObjData : String → ModelData) (m : Model)
    (s : ResourceManager) :
    init objData simpleObjData m (init objData simpleObjData m s) =
      init objData simpleObjData m s := by
  by_cases h : alContains s.models m.modelType
  · simp [init, h]
  · simp [init, h, alContains_alInsert_self]

theorem initTerrainTexturesIdem (s : ResourceManager) :
    initTerrainTextures (initTerrainTextures s) = initTerrainTextures s := by
  cases hp : s.texturePack with
  | some p =>
    cases hb : s.blendTexture with
    | some b => simp [initTerrainTextures, hp, hb]
    | none => simp [initTerrainTextures, hp, hb]
  | none =>
    cases hb : s.blendTexture with
    | some b => simp [initTerrainTextures, hp, hb]
    | none => simp [initTerrainTextures, hp, hb]

theorem initTerrainModelIdem (genTerrain : LoaderState → TerrainModel × LoaderState)
    (s : ResourceManager) :
    initTerrainModel genTerrain (initTerrainModel genTerrain s) =
      initTerrainModel genTerrain s := by
  cases h : s.terrainModel with
  | some t => simp [initTerrainModel, h]
  | none => simp [initTerrainModel, h]

theorem initGuiModelIdem (s : ResourceManager) :
    initGuiModel (initGuiModel s) = initGuiModel s := by
  cases h : s.guiModel with
  | some g => simp [initGuiModel, h]
  | none => simp [initGuiModel, h]

theorem initGuiTexturesIdem (s : ResourceManager) :
    initGuiTextures (initGuiTextures s) = initGuiTextures s := by
  have hne : GUI_BACKGROUND_TEXTURE ≠ HEALTHBAR_TEXTURE := by decide
  have hne2 : HEALTHBAR_TEXTURE ≠ GUI_BACKGROUND_TEXTURE := by decide
  have hOtherHb : ∀ (gs : List (String × TextureId)) (v : TextureId),
      alContains (alInsert gs GUI_BACKGROUND_TEXTURE v) HEALTHBAR_TEXTURE =
        alContains gs HEALTHBAR_TEXTURE :=
    fun gs v => alContains_alInsert_other gs _ _ v hne2
  have hOtherBg : ∀ (gs : List (String × TextureId)) (v : TextureId),
      alContains (alInsert gs HEALTHBAR_TEXTURE v) GUI_BACKGROUND_TEXTURE =
        alContains gs GUI_BACKGROUND_TEXTURE :=
    fun gs v => alContains_alInsert_other gs _ _ v hne
  by_cases h1 : alContains s.guiTextures HEALTHBAR_TEXTURE
  · by_cases h2 : alContains s.guiTextures GUI_BACKGROUND_TEXTURE
    · simp [initGuiTextures, h1, h2]
    · simp [initGuiTextures, h1, h2, alContains_alInsert_self, hOtherHb]
  · by_cases h2 : alContains s.guiTextures GUI_BACKGROUND_TEXTURE
    · simp [initGuiTextures, h1, h2, alContains_alInsert_self, hOtherBg]
    · simp [initGuiTextures, h1, h2, alContains_alInsert_self, hOtherHb, hOtherBg]

theorem initSkyboxIdem (s : ResourceManager) :
    initSkybox (initSkybox s) = initSkybox s := by
  cases h : s.skyboxModel with
  | some m => simp [initSkybox, h]
  | none => simp [initSkybox, h]

theorem initWaterIdem (s : ResourceManager) :
    initWater (initWater s) = initWater s := by
  cases h : s.waterModel with
  | some m => simp [initWater, h]
  | none => simp [initWater, h]

theorem initParticleModelIdem (s : ResourceManager) :
    initParticleModel (initParticleModel s) = initParticleModel s := by
  cases h : s.particleModel with
  | some m => simp [initParticleModel, h]
  | none => simp [initParticleModel, h]

theorem addParticleTextureEntryId (p : String × Nat) (s : ResourceManager)
    (h : alContains s.particleTextures p = true) :
    addParticleTextureEntry p s = s := by
  simp [addParticleTextureEntry, h]

theorem addParticleTextureEntryContains (p q : String × Nat)
    (s : ResourceManager) (h : alContains s.particleTextures q = true) :
    alContains (addParticleTextureEntry p s).particleTextures q = true := by
  unfold addParticleTextureEntry
  by_cases hc : alContains s.particleTextures p
  · simp [hc, h]
  · by_cases hpq : q = p
    · subst hpq
      simp [hc, alContains_alInsert_self]
    · simp [hc, alContains_alInsert_other _ _ _ _ hpq, h]

theorem addParticleTextureEntryContainsSelf (p : String × Nat)
    (s : ResourceManager) :
    alContains (addParticleTextureEntry p s).particleTextures p = true := by
  unfold addParticleTextureEntry
  by_cases hc : alContains s.particleTextures p
  · simp [hc]
  · simp [hc, alContains_alInsert_self]

theorem initParticleTexturesIdem (s : ResourceManager) :
    initParticleTextures (initParticleTextures s) = initParticleTextures s := by
  have h1 : alContains (initParticleTextures s).particleTextures PARTICLE_ATLAS = true := by
    unfold initParticleTextures
    exact addParticleTextureEntryContains _ _ _
      (addParticleTextureEntryContains _ _ _
        (addParticleTextureEntryContainsSelf _ _))
  have h2 : alContains (initParticleTextures s).particleTextures FIRE_ATLAS = true := by
    unfold initParticleTextures
    exact addParticleTextureEntryContains _ _ _
      (addParticleTextureEntryContainsSelf _ _)
  have h3 : alContains (initParticleTextures s).particleTextures SMOKE_ATLAS = true :=
    addParticleTextureEntryContainsSelf _ _
  conv =>
    lhs
    rw [initParticleTextures]
  rw [addParticleTextureEntryId PARTICLE_ATLAS _ h1,
    addParticleTextureEntryId FIRE_ATLAS _ h2,
    addParticleTextureEntryId SMOKE_ATLAS _ h3]

theorem initFontsIdem (s : ResourceManager) :
    initFonts (initFonts s) = initFonts s := by
  by_cases h : alContains s.fontTypes COPPER_SDF_FONT_TYPE
  · simp [initFonts, h]
  · simp [initFonts, h, alContains_alInsert_self]

theorem initDebugCuboidModelIdem (s : ResourceManager) :
    initDebugCuboidModel (initDebugCuboidModel s) = initDebugCuboidModel s := by
  cases h : s.debugModel with
  | some m => simp [initDebugCuboidModel, h]
  | none => simp [initDebugCuboidModel, h]

/-- C9: every init operation of the ResourceManager is idempotent — a
second call after a first call for the same resource key returns the state
unchanged (no loading is enqueued, no memo field or map entry altered), so
callers may invoke the init operations unconditionally.  The external
collaborators (OBJ decoding, terrain generation) enter as parameters, so
the property holds whatever they produce. -/
theorem c9_init_idempotent (objData simpleObjData : String → ModelData)
    (genTerrain : LoaderState → TerrainModel × LoaderState) :
    (∀ (m : Model) (s : ResourceManager),
      init objData simpleObjData m (init objData simpleObjData m s) =
        init objData simpleObjData m s) ∧
    (∀ s, initTerrainTextures (initTerrainTextures s) = initTerrainTextures s) ∧
    (∀ s, initTerrainModel genTerrain (initTerrainModel genTerrain s) =
      initTerrainModel genTerrain s) ∧
    (∀ s, initGuiModel (initGuiModel s) = initGuiModel s) ∧
    (∀ s, initGuiTextures (initGuiTextures s) = initGuiTextures s) ∧
    (∀ s, initSkybox (initSkybox s) = initSkybox s) ∧
    (∀ s, initWater (initWater s) = initWater s) ∧
    (∀ s, initParticleModel (initParticleModel s) = initParticleModel s) ∧
    (∀ s, initParticleTextures (initParticleTextures s) = initParticleTextures s) ∧
    (∀ s, initFonts (initFonts s) = initFonts s) ∧
    (∀ s, initDebugCuboidModel (initDebugCuboidModel s) = initDebugCuboidModel s) :=
  ⟨initIdem objData simpleObjData, initTerrainTexturesIdem,
   initTerrainModelIdem genTerrain, initGuiModelIdem, initGuiTexturesIdem,
   initSkyboxIdem, initWaterIdem, initParticleModelIdem,
   initParticleTexturesIdem, initFontsIdem, initDebugCuboidModelIdem⟩

end Copper
